import Mathlib

/-!
Verification development for the instance-forge scheduling-instance generator.

The Python sources are shallowly embedded:
  * `SchedulingField` mirrors the enum in schedulingfield.py, with its Python
    member names (`pyName`) and string values (`val`).
  * `validate` mirrors the check sequence of `InstanceEnvironment.__init__`.
  * Python floats are modelled as exact rationals; machine integers as `Int`
    or `Nat` with explicit `% 2 ^ w` where overflow matters.
  * Python `random.Random` is modelled as a deterministic stream (`Rng`);
    the theorems proved do not depend on the particular stream values.
-/

namespace InstanceForge

/-- SchedulingField enum members, in declaration order (schedulingfield.py). -/
inductive SchedulingField where
  | SINGLE_MACHINE
  | PARALLEL_IDENTICAL
  | PARALLEL_DIFFERENT
  | PARALLEL_UNRELATED
  | FLOWSHOP
  | JOBSHOP
  | OPENSHOP
  | FLEXIBLE_FLOWSHOP_IDENTICAL
  | FLEXIBLE_FLOWSHOP_DIFFERENT
  | FLEXIBLE_FLOWSHOP_UNRELATED
  | FLEXIBLE_JOBSHOP_IDENTICAL
  | FLEXIBLE_JOBSHOP_DIFFERENT
  | FLEXIBLE_JOBSHOP_UNRELATED
  | FLEXIBLE_OPENSHOP_IDENTICAL
  | FLEXIBLE_OPENSHOP_DIFFERENT
  | FLEXIBLE_OPENSHOP_UNRELATED
  | NO_CONSTRAINTS
  | PRECEDENCE
  | RELEASE_TIMES
  | DUE_DATES
  | DEADLINES
  | SETUP_TIMES
  | SEQUENCE_DEPENDENT_SETUP
  | MACHINE_ELIGIBILITY
  | MACHINE_CENTER_ELIGIBILITY
  | MACHINE_OPERATION_ELIGIBILITY
  | NO_WAIT
  | PREEMPTION
  | BLOCK
  | BREAKDOWNS
  | PERMUTATION
  | RECIRCULATION
  | MAKESPAN
  | TOTAL_COMPLETION_TIME
  | TOTAL_WEIGHTED_COMPLETION
  | EARLYNESS
  | WEIGHTED_EARLYNESS
  | MAX_LATENESS
  | TOTAL_TARDINESS
  | WEIGHTED_TARDINESS
  | NUMBER_LATE_JOBS
  | WEIGHTED_LATE_JOBS
  | TOTAL_ABS_DEVIATION
  deriving DecidableEq, Repr

namespace SchedulingField

/-- The Python member name of each enum member. -/
def pyName : SchedulingField → String
  | SINGLE_MACHINE => "SINGLE_MACHINE"
  | PARALLEL_IDENTICAL => "PARALLEL_IDENTICAL"
  | PARALLEL_DIFFERENT => "PARALLEL_DIFFERENT"
  | PARALLEL_UNRELATED => "PARALLEL_UNRELATED"
  | FLOWSHOP => "FLOWSHOP"
  | JOBSHOP => "JOBSHOP"
  | OPENSHOP => "OPENSHOP"
  | FLEXIBLE_FLOWSHOP_IDENTICAL => "FLEXIBLE_FLOWSHOP_IDENTICAL"
  | FLEXIBLE_FLOWSHOP_DIFFERENT => "FLEXIBLE_FLOWSHOP_DIFFERENT"
  | FLEXIBLE_FLOWSHOP_UNRELATED => "FLEXIBLE_FLOWSHOP_UNRELATED"
  | FLEXIBLE_JOBSHOP_IDENTICAL => "FLEXIBLE_JOBSHOP_IDENTICAL"
  | FLEXIBLE_JOBSHOP_DIFFERENT => "FLEXIBLE_JOBSHOP_DIFFERENT"
  | FLEXIBLE_JOBSHOP_UNRELATED => "FLEXIBLE_JOBSHOP_UNRELATED"
  | FLEXIBLE_OPENSHOP_IDENTICAL => "FLEXIBLE_OPENSHOP_IDENTICAL"
  | FLEXIBLE_OPENSHOP_DIFFERENT => "FLEXIBLE_OPENSHOP_DIFFERENT"
  | FLEXIBLE_OPENSHOP_UNRELATED => "FLEXIBLE_OPENSHOP_UNRELATED"
  | NO_CONSTRAINTS => "NO_CONSTRAINTS"
  | PRECEDENCE => "PRECEDENCE"
  | RELEASE_TIMES => "RELEASE_TIMES"
  | DUE_DATES => "DUE_DATES"
  | DEADLINES => "DEADLINES"
  | SETUP_TIMES => "SETUP_TIMES"
  | SEQUENCE_DEPENDENT_SETUP => "SEQUENCE_DEPENDENT_SETUP"
  | MACHINE_ELIGIBILITY => "MACHINE_ELIGIBILITY"
  | MACHINE_CENTER_ELIGIBILITY => "MACHINE_CENTER_ELIGIBILITY"
  | MACHINE_OPERATION_ELIGIBILITY => "MACHINE_OPERATION_ELIGIBILITY"
  | NO_WAIT => "NO_WAIT"
  | PREEMPTION => "PREEMPTION"
  | BLOCK => "BLOCK"
  | BREAKDOWNS => "BREAKDOWNS"
  | PERMUTATION => "PERMUTATION"
  | RECIRCULATION => "RECIRCULATION"
  | MAKESPAN => "MAKESPAN"
  | TOTAL_COMPLETION_TIME => "TOTAL_COMPLETION_TIME"
  | TOTAL_WEIGHTED_COMPLETION => "TOTAL_WEIGHTED_COMPLETION"
  | EARLYNESS => "EARLYNESS"
  | WEIGHTED_EARLYNESS => "WEIGHTED_EARLYNESS"
  | MAX_LATENESS => "MAX_LATENESS"
  | TOTAL_TARDINESS => "TOTAL_TARDINESS"
  | WEIGHTED_TARDINESS => "WEIGHTED_TARDINESS"
  | NUMBER_LATE_JOBS => "NUMBER_LATE_JOBS"
  | WEIGHTED_LATE_JOBS => "WEIGHTED_LATE_JOBS"
  | TOTAL_ABS_DEVIATION => "TOTAL_ABS_DEVIATION"

/-- The Python string value of each enum member. -/
def val : SchedulingField → String
  | SINGLE_MACHINE => "1"
  | PARALLEL_IDENTICAL => "P"
  | PARALLEL_DIFFERENT => "Q"
  | PARALLEL_UNRELATED => "R"
  | FLOWSHOP => "F"
  | JOBSHOP => "J"
  | OPENSHOP => "O"
  | FLEXIBLE_FLOWSHOP_IDENTICAL => "FF_P"
  | FLEXIBLE_FLOWSHOP_DIFFERENT => "FF_Q"
  | FLEXIBLE_FLOWSHOP_UNRELATED => "FF_R"
  | FLEXIBLE_JOBSHOP_IDENTICAL => "FJ_P"
  | FLEXIBLE_JOBSHOP_DIFFERENT => "FJ_Q"
  | FLEXIBLE_JOBSHOP_UNRELATED => "FJ_R"
  | FLEXIBLE_OPENSHOP_IDENTICAL => "FO_P"
  | FLEXIBLE_OPENSHOP_DIFFERENT => "FO_Q"
  | FLEXIBLE_OPENSHOP_UNRELATED => "FO_R"
  | NO_CONSTRAINTS => ""
  | PRECEDENCE => "prec"
  | RELEASE_TIMES => "r_j"
  | DUE_DATES => "d_j"
  | DEADLINES => "bar_d_j"
  | SETUP_TIMES => "s_ij"
  | SEQUENCE_DEPENDENT_SETUP => "s_jk"
  | MACHINE_ELIGIBILITY => "M_j"
  | MACHINE_CENTER_ELIGIBILITY => "M_j_c"
  | MACHINE_OPERATION_ELIGIBILITY => "M_"
  | NO_WAIT => "nwt"
  | PREEMPTION => "prmp"
  | BLOCK => "block"
  | BREAKDOWNS => "brkdwn"
  | PERMUTATION => "perm"
  | RECIRCULATION => "rcrc"
  | MAKESPAN => "C_max"
  | TOTAL_COMPLETION_TIME => "sum_C_j"
  | TOTAL_WEIGHTED_COMPLETION => "sum_w_j_C_j"
  | EARLYNESS => "sum_E_j"
  | WEIGHTED_EARLYNESS => "sum_w_j_E_j"
  | MAX_LATENESS => "L_max"
  | TOTAL_TARDINESS => "sum_T_j"
  | WEIGHTED_TARDINESS => "sum_w_j_T_j"
  | NUMBER_LATE_JOBS => "sum_U_j"
  | WEIGHTED_LATE_JOBS => "sum_w_j_U_j"
  | TOTAL_ABS_DEVIATION => "sum_d_j-C_j"

/-- All enum members in declaration order (iteration order of `for f in cls`). -/
def allFields : List SchedulingField :=
  [SINGLE_MACHINE, PARALLEL_IDENTICAL, PARALLEL_DIFFERENT, PARALLEL_UNRELATED,
   FLOWSHOP, JOBSHOP, OPENSHOP,
   FLEXIBLE_FLOWSHOP_IDENTICAL, FLEXIBLE_FLOWSHOP_DIFFERENT, FLEXIBLE_FLOWSHOP_UNRELATED,
   FLEXIBLE_JOBSHOP_IDENTICAL, FLEXIBLE_JOBSHOP_DIFFERENT, FLEXIBLE_JOBSHOP_UNRELATED,
   FLEXIBLE_OPENSHOP_IDENTICAL, FLEXIBLE_OPENSHOP_DIFFERENT, FLEXIBLE_OPENSHOP_UNRELATED,
   NO_CONSTRAINTS, PRECEDENCE, RELEASE_TIMES, DUE_DATES, DEADLINES,
   SETUP_TIMES, SEQUENCE_DEPENDENT_SETUP, MACHINE_ELIGIBILITY,
   MACHINE_CENTER_ELIGIBILITY, MACHINE_OPERATION_ELIGIBILITY,
   NO_WAIT, PREEMPTION, BLOCK, BREAKDOWNS, PERMUTATION, RECIRCULATION,
   MAKESPAN, TOTAL_COMPLETION_TIME, TOTAL_WEIGHTED_COMPLETION,
   EARLYNESS, WEIGHTED_EARLYNESS, MAX_LATENESS, TOTAL_TARDINESS,
   WEIGHTED_TARDINESS, NUMBER_LATE_JOBS, WEIGHTED_LATE_JOBS, TOTAL_ABS_DEVIATION]

/-- Member-name filter set of `SchedulingField.alpha_fields` (taken verbatim from
the source, including names that match no member). -/
def alphaNameSet : List String :=
  ["SINGLE_MACHINE", "PARALLEL_IDENTICAL", "PARALLEL_UNRELATED", "FLOWSHOP",
   "JOBSHOP", "OPENSHOP", "FLEXIBLE_FLOWSHOP", "FLEXIBLE_JOBSHOP"]

/-- Member-name filter set of `SchedulingField.beta_fields` (verbatim from the
source, including names that match no member). -/
def betaNameSet : List String :=
  ["NO_CONSTRAINTS", "PRECEDENCE", "RELEASE_TIMES", "DUE_DATES", "DEADLINES",
   "SETUP_TIMES", "SEQUENCE_DEPENDENT_SETUP", "MACHINE_ELIGIBILITY", "NO_WAIT",
   "PREEMPTION", "BLOCK", "BREAKDOWNS", "PERMUTATION", "RECIRCULATION",
   "BATCH", "JOB_FAMILIES"]

/-- Member-name filter set of `SchedulingField.gamma_fields` (verbatim from the
source, including names that match no member). -/
def gammaNameSet : List String :=
  ["MAKESPAN", "TOTAL_COMPLETION_TIME", "TOTAL_TARDINESS", "WEIGHTED_TARDINESS",
   "TOTAL_WEIGHTED_COMPLETION", "MAX_LATENESS", "NUMBER_TARDY_JOBS"]

/-- `SchedulingField.alpha_fields()`. -/
def alpha_fields : List SchedulingField :=
  allFields.filter (fun f => f.pyName ∈ alphaNameSet)

/-- `SchedulingField.beta_fields()`. -/
def beta_fields : List SchedulingField :=
  allFields.filter (fun f => f.pyName ∈ betaNameSet)

/-- `SchedulingField.gamma_fields()`. -/
def gamma_fields : List SchedulingField :=
  allFields.filter (fun f => f.pyName ∈ gammaNameSet)

end SchedulingField

/-- Python equality between a SchedulingField enum member and a `str`.  The
Enum class defines no cross-type equality, so `member == "some string"` is
always `False` in Python; several source sets hold plain strings but are
queried with enum members, which this models. -/
def pyEnumEqStr (_f : SchedulingField) (_s : String) : Bool := false

/-- Python membership `member in set_of_strings` (elementwise `==`). -/
def pyEnumInStrSet (f : SchedulingField) (s : List String) : Bool :=
  s.any (pyEnumEqStr f)

/-- `InstanceEnvironment._CONFLICTING_ALPHA_BETA_PAIRS` (value strings). -/
def CONFLICTING_ALPHA_BETA_PAIRS : List (String × String) :=
  [("1", "M_j"), ("1", "M_j_c"), ("1", "rcrc"), ("1", "nwt"),
   ("P", "perm"), ("P", "nwt"), ("P", "rcrc"), ("P", "M_j_c"),
   ("Q", "perm"), ("Q", "nwt"), ("Q", "rcrc"), ("Q", "M_j_c"),
   ("R", "perm"), ("R", "nwt"), ("R", "rcrc"), ("R", "M_j_c"),
   ("F", "prmp"), ("F", "M_j"), ("F", "rcrc"), ("F", "M_j_c"),
   ("J", "block"), ("J", "perm"), ("J", "M_j"), ("J", "M_j_c"),
   ("O", "block"), ("O", "perm"), ("O", "M_j"), ("O", "M_j_c"), ("O", "rcrc"),
   ("FF_P", "prmp"), ("FF_P", "nwt"), ("FF_P", "rcrc"),
   ("FF_Q", "prmp"), ("FF_Q", "nwt"), ("FF_Q", "rcrc"),
   ("FF_R", "prmp"), ("FF_R", "nwt"), ("FF_R", "rcrc"),
   ("FJ_P", "nwt"), ("FJ_Q", "nwt"), ("FJ_R", "nwt")]

/-- `InstanceEnvironment._CONFLICTING_BETA_PAIRS`. -/
def CONFLICTING_BETA_PAIRS : List (String × String) :=
  [("nwt", "prmp"), ("nwt", "s_ij"), ("nwt", "s_jk"), ("nwt", "block"),
   ("s_ij", "s_jk"), ("perm", "rcrc"), ("perm", "block"),
   ("batch", "nwt"), ("batch", "prmp"), ("M_j", "M_j_c")]

/-- `InstanceEnvironment._WEIGHTED_GAMMA_FIELDS`. -/
def WEIGHTED_GAMMA_FIELDS : List String :=
  ["sum_w_j_C_j", "sum_w_j_E_j", "sum_w_j_T_j", "sum_w_j_U_j"]

/-- `InstanceEnvironment._TIME_GAMMA_FIELDS`. -/
def TIME_GAMMA_FIELDS : List String :=
  ["L_max", "sum_E_j", "sum_w_j_E_j", "sum_T_j", "sum_w_j_T_j",
   "sum_U_j", "sum_w_j_U_j", "sum_d_j-C_j"]

/-- `InstanceEnvironment._CENTER_ALPHA_FIELDS` (a set of value strings). -/
def CENTER_ALPHA_FIELDS : List String :=
  ["FF_P", "FF_Q", "FF_R", "FJ_P", "FJ_Q", "FJ_R", "FO_P", "FO_Q", "FO_R"]

/-- `InstanceEnvironment._IDENTICAL_ALPHA_FIELDS` (value strings). -/
def IDENTICAL_ALPHA_FIELDS : List String := ["P", "FF_P", "FJ_P", "FO_P"]

/-- `InstanceEnvironment._DIFFERENT_ALPHA_FIELDS` (value strings). -/
def DIFFERENT_ALPHA_FIELDS : List String := ["Q", "FF_Q", "FJ_Q", "FO_Q"]

/-- `InstanceEnvironment._UNRELATED_ALPHA_FIELDS` (value strings). -/
def UNRELATED_ALPHA_FIELDS : List String := ["R", "FF_R", "FJ_R", "FO_R"]

/-- `InstanceEnvironment._FLOWSHOP_ALPHA_FIELDS` (value strings). -/
def FLOWSHOP_ALPHA_FIELDS : List String := ["F", "FF_P", "FF_Q", "FF_R"]

/-- `InstanceEnvironment._JOBSHOP_ALPHA_FIELDS` (value strings). -/
def JOBSHOP_ALPHA_FIELDS : List String := ["J", "FJ_P", "FJ_Q", "FJ_R"]

/-- `InstanceEnvironment._OPENSHOP_ALPHA_FIELDS` (value strings). -/
def OPENSHOP_ALPHA_FIELDS : List String := ["O", "FO_P", "FO_Q", "FO_R"]

/-- `InstanceEnvironment._REQUIRED_BETA_FOR_TARDINESS`. -/
def REQUIRED_BETA_FOR_TARDINESS : List String := ["d_j", "bar_d_j"]

/-- The constructor arguments of `InstanceEnvironment.__init__`.  A `beta`
argument of Python `None` is normalised to the empty list by `__init__`, so
`beta` is modelled as a plain list. -/
structure EnvInput where
  alpha : SchedulingField
  beta : List SchedulingField
  gamma : SchedulingField
  numJobs : Int
  numMachines : Int
  numCenters : Int
  deriving DecidableEq, Repr

/-- One constructor per distinct `raise ValueError` site of the validator. -/
inductive ValidationError where
  | numJobsTooSmall (n : Int)
  | numMachinesTooSmall (n : Int)
  | numCentersTooSmall (n : Int)
  | machinesExceedJobs (m j : Int)
  | invalidAlphaField (a : SchedulingField)
  | singleMachineNeedsOneMachine (m : Int)
  | alphaMustBeSingleMachine
  | centersMustExceedOne (a : SchedulingField) (c : Int)
  | centersMustBeOne (a : SchedulingField) (c : Int)
  | invalidBetaFields (joined : String)
  | conflictingAlphaBeta (a b : String)
  | noConstraintsCombined
  | conflictingBeta (a b : String)
  | invalidGammaField (g : SchedulingField)
  | gammaRequiresDueOrDeadline (g : String)
  deriving DecidableEq, Repr

open SchedulingField

instance {ε α : Type} [DecidableEq ε] [DecidableEq α] : DecidableEq (Except ε α)
  | .error a, .error b =>
    if h : a = b then .isTrue (by rw [h]) else .isFalse (by intro hh; cases hh; exact h rfl)
  | .error _, .ok _ => .isFalse (by intro hh; cases hh)
  | .ok _, .error _ => .isFalse (by intro hh; cases hh)
  | .ok a, .ok b =>
    if h : a = b then .isTrue (by rw [h]) else .isFalse (by intro hh; cases hh; exact h rfl)

/-- Sizing checks at the top of `InstanceEnvironment.__init__`. -/
def checkSizing (e : EnvInput) : Except ValidationError Unit :=
  if e.numJobs ≤ 0 then .error (.numJobsTooSmall e.numJobs)
  else if e.numMachines ≤ 0 then .error (.numMachinesTooSmall e.numMachines)
  else if e.numCenters ≤ 0 then .error (.numCentersTooSmall e.numCenters)
  else if e.numJobs < e.numMachines then
    .error (.machinesExceedJobs e.numMachines e.numJobs)
  else .ok ()

/-- `InstanceEnvironment._validate_alpha_field`.  Note that
`_CENTER_ALPHA_FIELDS` holds value strings while `self.alpha` is an enum
member, so both `in` tests on it are always false (`pyEnumInStrSet`). -/
def validateAlphaField (e : EnvInput) : Except ValidationError Unit :=
  if e.alpha ∉ alpha_fields then .error (.invalidAlphaField e.alpha)
  else if e.alpha = SINGLE_MACHINE ∧ e.numMachines ≠ 1 then
    .error (.singleMachineNeedsOneMachine e.numMachines)
  else if e.alpha ≠ SINGLE_MACHINE ∧ e.numMachines = 1 then
    .error .alphaMustBeSingleMachine
  else if pyEnumInStrSet e.alpha CENTER_ALPHA_FIELDS ∧ e.numCenters ≠ 1 then
    .error (.centersMustExceedOne e.alpha e.numCenters)
  else if ¬ pyEnumInStrSet e.alpha CENTER_ALPHA_FIELDS ∧ e.numCenters > 1 then
    .error (.centersMustBeOne e.alpha e.numCenters)
  else .ok ()

/-- `InstanceEnvironment._validate_beta_field`: collect every invalid beta
member, then raise one error joining their values. -/
def validateBetaField (e : EnvInput) : Except ValidationError Unit :=
  let invalid := e.beta.filter (fun b => b ∉ beta_fields)
  if invalid.length > 0 then
    .error (.invalidBetaFields (String.intercalate "," (invalid.map val)))
  else .ok ()

/-- The deduplicated value set of the beta list (Python `set(b.value ...)`;
the iteration order of a Python set is unspecified, first-occurrence order is
used here). -/
def betaValueSet (e : EnvInput) : List String := (e.beta.map val).dedup

/-- `InstanceEnvironment._validate_alpha_beta_dependencies`. -/
def validateAlphaBetaDependencies (e : EnvInput) : Except ValidationError Unit :=
  match (betaValueSet e).find? (fun bv => (e.alpha.val, bv) ∈ CONFLICTING_ALPHA_BETA_PAIRS) with
  | some bv => .error (.conflictingAlphaBeta e.alpha.val bv)
  | none => .ok ()

/-- `InstanceEnvironment._validate_beta_combinations`. -/
def validateBetaCombinations (e : EnvInput) : Except ValidationError Unit :=
  if e.beta.isEmpty then .ok ()
  else
    let betaSet := betaValueSet e
    if "" ∈ betaSet ∧ betaSet.length > 1 then .error .noConstraintsCombined
    else
      match CONFLICTING_BETA_PAIRS.find? (fun p => p.1 ∈ betaSet ∧ p.2 ∈ betaSet) with
      | some p => .error (.conflictingBeta p.1 p.2)
      | none => .ok ()

/-- `InstanceEnvironment._validate_gamma_field` (the Lean model has no `None`
gamma, matching every call site in the repository). -/
def validateGammaField (e : EnvInput) : Except ValidationError Unit :=
  if e.gamma ∉ gamma_fields then .error (.invalidGammaField e.gamma)
  else .ok ()

/-- `InstanceEnvironment._validate_gamma_beta_dependencies`. -/
def validateGammaBetaDependencies (e : EnvInput) : Except ValidationError Unit :=
  if e.gamma.val ∈ TIME_GAMMA_FIELDS ∧
      (betaValueSet e).all (fun b => b ∉ REQUIRED_BETA_FOR_TARDINESS) then
    .error (.gammaRequiresDueOrDeadline e.gamma.val)
  else .ok ()

/-- The validation sequence of `InstanceEnvironment.__init__`, in source
order: sizing, `_validate_alpha_field`, `_validate_beta_field`,
`_validate_alpha_beta_dependencies`, `_validate_beta_combinations`,
`_validate_gamma_field`, `_validate_gamma_beta_dependencies`. -/
def validate (e : EnvInput) : Except ValidationError Unit := do
  checkSizing e
  validateAlphaField e
  validateBetaField e
  validateAlphaBetaDependencies e
  validateBetaCombinations e
  validateGammaField e
  validateGammaBetaDependencies e

/-- `InstanceEnvironment._get_num_operations` (a proper enum-list membership
test, unlike the alpha-setup flag tests). -/
def numOperations (e : EnvInput) : Int :=
  if e.alpha ∈ [FLOWSHOP, JOBSHOP, OPENSHOP] then e.numMachines else 1

/-- The derived alpha booleans of an `InstanceEnvironment`. -/
structure AlphaFlags where
  isIdentical : Bool
  isDifferent : Bool
  isUnrelated : Bool
  isFlowshop : Bool
  isJobshop : Bool
  isOpenshop : Bool
  deriving DecidableEq, Repr

/-- `InstanceEnvironment._get_alpha_setup`: every membership test queries a
set of value strings with an enum member (`pyEnumInStrSet`), starting from
fields initialised to `False` in `__init__`. -/
def getAlphaSetup (e : EnvInput) : AlphaFlags :=
  let f0 : AlphaFlags := ⟨false, false, false, false, false, false⟩
  let f1 :=
    if pyEnumInStrSet e.alpha IDENTICAL_ALPHA_FIELDS then
      { f0 with isIdentical := true, isDifferent := false, isUnrelated := false }
    else if pyEnumInStrSet e.alpha DIFFERENT_ALPHA_FIELDS then
      { f0 with isIdentical := false, isDifferent := true, isUnrelated := false }
    else if pyEnumInStrSet e.alpha UNRELATED_ALPHA_FIELDS then
      { f0 with isIdentical := false, isDifferent := false, isUnrelated := true }
    else f0
  if pyEnumInStrSet e.alpha FLOWSHOP_ALPHA_FIELDS then
    { f1 with isFlowshop := true, isJobshop := false, isOpenshop := false }
  else if pyEnumInStrSet e.alpha JOBSHOP_ALPHA_FIELDS then
    { f1 with isFlowshop := false, isJobshop := true, isOpenshop := false }
  else if pyEnumInStrSet e.alpha OPENSHOP_ALPHA_FIELDS then
    { f1 with isFlowshop := false, isJobshop := false, isOpenshop := true }
  else f1

/-- The derived beta booleans of an `InstanceEnvironment`. -/
structure BetaFlags where
  isBreakdown : Bool
  isEligible : Bool
  isSameEligibleMachines : Bool
  isRelease : Bool
  isDue : Bool
  isDeadline : Bool
  isPrecedence : Bool
  isSetuptime : Bool
  isSetuptimeSeq : Bool
  deriving DecidableEq, Repr

/-- `InstanceEnvironment._get_beta_setup` (proper membership of enum members
in the beta list). -/
def getBetaSetup (e : EnvInput) : BetaFlags where
  isBreakdown := e.beta.contains BREAKDOWNS
  isEligible := e.beta.contains MACHINE_ELIGIBILITY || e.beta.contains MACHINE_CENTER_ELIGIBILITY
  isSameEligibleMachines := e.beta.contains MACHINE_CENTER_ELIGIBILITY
  isRelease := e.beta.contains RELEASE_TIMES
  isDue := e.beta.contains DUE_DATES
  isDeadline := e.beta.contains DEADLINES
  isPrecedence := e.beta.contains PRECEDENCE
  isSetuptime := e.beta.contains SETUP_TIMES
  isSetuptimeSeq := e.beta.contains SEQUENCE_DEPENDENT_SETUP

/-- `InstanceEnvironment._get_gamma_setup`: `self.gamma` (an enum member) is
tested against `_WEIGHTED_GAMMA_FIELDS`, a set of value strings. -/
def isWeighted (e : EnvInput) : Bool :=
  pyEnumInStrSet e.gamma WEIGHTED_GAMMA_FIELDS

/-- `InstanceEnvironment._get_is_fixed_sequence` (proper enum equality). -/
def sequenceSetup (e : EnvInput) : Option (Bool × Bool) :=
  if e.alpha = FLOWSHOP then some (true, true)
  else if e.alpha = JOBSHOP then some (true, false)
  else if e.alpha = OPENSHOP then some (false, false)
  else none

/-- `InstanceEnvironment.__str__`. -/
def envToString (e : EnvInput) : String :=
  let alphaStr := e.alpha.val
  let betaStr := String.intercalate "," (e.beta.map val)
  let gammaStr := e.gamma.val
  let machinesStr := toString e.numMachines
  let alphaFull := alphaStr ++ (if e.numMachines ≠ 0 ∧ e.numMachines > 1 then machinesStr else "")
  alphaFull ++ "|" ++ betaStr ++ "|" ++ gammaStr ++ "_n" ++ toString e.numJobs

namespace SHA256

/-- Word arithmetic is over 32 bits. -/
def M32 : Nat := 2 ^ 32

/-- Rotate a 32-bit word right by `n`. -/
def rotr (n x : Nat) : Nat := ((x >>> n) ||| (x <<< (32 - n))) % M32

def bigSigma0 (x : Nat) : Nat := (rotr 2 x) ^^^ (rotr 13 x) ^^^ (rotr 22 x)

def bigSigma1 (x : Nat) : Nat := (rotr 6 x) ^^^ (rotr 11 x) ^^^ (rotr 25 x)

def smallSigma0 (x : Nat) : Nat := (rotr 7 x) ^^^ (rotr 18 x) ^^^ (x >>> 3)

def smallSigma1 (x : Nat) : Nat := (rotr 17 x) ^^^ (rotr 19 x) ^^^ (x >>> 10)

def ch (x y z : Nat) : Nat := (x &&& y) ^^^ ((x ^^^ 4294967295) &&& z)

def maj (x y z : Nat) : Nat := (x &&& y) ^^^ (x &&& z) ^^^ (y &&& z)

/-- The 64 SHA-256 round constants (FIPS 180-4, written in decimal). -/
def K : List Nat :=
  [1116352408, 1899447441, 3049323471, 3921009573, 961987163,
   1508970993, 2453635748, 2870763221, 3624381080, 310598401,
   607225278, 1426881987, 1925078388, 2162078206, 2614888103,
   3248222580, 3835390401, 4022224774, 264347078, 604807628,
   770255983, 1249150122, 1555081692, 1996064986, 2554220882,
   2821834349, 2952996808, 3210313671, 3336571891, 3584528711,
   113926993, 338241895, 666307205, 773529912, 1294757372,
   1396182291, 1695183700, 1986661051, 2177026350, 2456956037,
   2730485921, 2820302411, 3259730800, 3345764771, 3516065817,
   3600352804, 4094571909, 275423344, 430227734, 506948616,
   659060556, 883997877, 958139571, 1322822218, 1537002063,
   1747873779, 1955562222, 2024104815, 2227730452, 2361852424,
   2428436474, 2756734187, 3204031479, 3329325298]

/-- The initial hash values (FIPS 180-4, written in decimal). -/
def H0 : List Nat :=
  [1779033703, 3144134277, 1013904242, 2773480762,
   1359893119, 2600822924, 528734635, 1541459225]

/-- Big-endian byte decomposition of `v` into `n` bytes. -/
def bytesBE : Nat → Nat → List Nat
  | 0, _ => []
  | n + 1, v => bytesBE n (v / 256) ++ [v % 256]

/-- SHA-256 padding of a byte list. -/
def padMessage (msg : List Nat) : List Nat :=
  let len := msg.length
  let zeros := (120 - (len + 1) % 64) % 64
  msg ++ [128] ++ List.replicate zeros 0 ++ bytesBE 8 ((8 * len) % 2 ^ 64)

/-- Big-endian grouping of bytes into 32-bit words. -/
def toWords : List Nat → List Nat
  | a :: b :: c :: d :: rest => (a * 2 ^ 24 + b * 2 ^ 16 + c * 2 ^ 8 + d) :: toWords rest
  | _ => []

/-- Split a word list into 16-word blocks. -/
def chunk16 : List Nat → List (List Nat)
  | [] => []
  | x :: xs => ((x :: xs).take 16) :: chunk16 ((x :: xs).drop 16)
  termination_by l => l.length
  decreasing_by simp [List.drop]; omega

/-- Extend a 16-word block by `count` further schedule words. -/
def extendW (w : List Nat) : Nat → List Nat
  | 0 => w
  | n + 1 =>
    let t := (smallSigma1 (w.getD (w.length - 2) 0) + w.getD (w.length - 7) 0 +
              smallSigma0 (w.getD (w.length - 15) 0) + w.getD (w.length - 16) 0) % M32
    extendW (w ++ [t]) n

/-- One round of the SHA-256 compression function. -/
def round (st : List Nat) (kw : Nat × Nat) : List Nat :=
  match st with
  | [a, b, c, d, e, f, g, h] =>
    let t1 := (h + bigSigma1 e + ch e f g + kw.1 + kw.2) % M32
    let t2 := (bigSigma0 a + maj a b c) % M32
    [(t1 + t2) % M32, a, b, c, (d + t1) % M32, e, f, g]
  | other => other

/-- Process one message block, updating the eight hash values. -/
def processBlock (hs : List Nat) (block : List Nat) : List Nat :=
  let ws := extendW block 48
  let res := (K.zip ws).foldl round hs
  (hs.zip res).map (fun p => (p.1 + p.2) % M32)

/-- The SHA-256 digest of a byte list, as a 256-bit natural number. -/
def sha256Nat (msg : List Nat) : Nat :=
  let blocks := chunk16 (toWords (padMessage msg))
  (blocks.foldl processBlock H0).foldl (fun acc h => acc * M32 + h) 0

end SHA256

/-- The bytes of an ASCII string; all strings hashed by the seed derivation
are ASCII, for which UTF-8 encoding coincides with the code points. -/
def strBytes (s : String) : List Nat := s.data.map Char.toNat

/-- A single-quote character as a string. -/
def pyQuote : String := String.singleton (Char.ofNat 39)

/-- Python `repr` of a string with no quotes or backslashes in it. -/
def pyStrRepr (s : String) : String := pyQuote ++ s ++ pyQuote

/-- Python `str` of a tuple of strings: `()`, one-element tuples with a
trailing comma, otherwise comma-space separated reprs. -/
def pyTupleReprOfStrs (l : List String) : String :=
  match l with
  | [] => "()"
  | [a] => "(" ++ pyStrRepr a ++ ",)"
  | _ => "(" ++ String.intercalate ", " (l.map pyStrRepr) ++ ")"

/-- `tuple(sorted(b.value for b in self.beta)) if self.beta else tuple()`. -/
def sortedBetaValues (e : EnvInput) : List String :=
  if e.beta.isEmpty then [] else List.insertionSort (· ≤ ·) (e.beta.map val)

/-- `str(combined)` inside `InstanceEnvironment._generate_seed`: the forward
attribute tuple, or the reversed tuple when `reverse` is set. -/
def seedInputString (e : EnvInput) (reverse : Bool) : String :=
  let betaRepr := pyTupleReprOfStrs (sortedBetaValues e)
  if reverse then
    "(" ++ toString e.numCenters ++ ", " ++ toString e.numMachines ++ ", " ++
      toString e.numJobs ++ ", " ++ pyStrRepr e.gamma.val ++ ", " ++ betaRepr ++
      ", " ++ pyStrRepr e.alpha.val ++ ")"
  else
    "(" ++ pyStrRepr e.alpha.val ++ ", " ++ betaRepr ++ ", " ++
      pyStrRepr e.gamma.val ++ ", " ++ toString e.numJobs ++ ", " ++
      toString e.numMachines ++ ", " ++ toString e.numCenters ++ ")"

/-- `InstanceEnvironment._generate_seed`: SHA-256 of the canonical tuple
string, reduced to the 32-bit unsigned range. -/
def generateSeed (e : EnvInput) (reverse : Bool) : Nat :=
  SHA256.sha256Nat (strBytes (seedInputString e reverse)) % 2 ^ 32

/-- `self.job_seed = self._generate_seed()`. -/
def jobSeed (e : EnvInput) : Nat := generateSeed e false

/-- `self.machine_seed = self._generate_seed(True)`. -/
def machineSeed (e : EnvInput) : Nat := generateSeed e true

/-! Generator model (instance.py).  Python errors raised during generation
are one constructor each; `outOfFuel` is the fuel-exhaustion outcome used to
model a Python loop that runs without bound. -/

/-- Errors raised while constructing an `Instance`. -/
inductive GenError where
  | typeErrorCenterInit
  | nameError (v : String)
  | valueError (s : String)
  | assertionError (s : String)
  | outOfFuel
  deriving DecidableEq, Repr

/-- Deterministic model of a `random.Random` stream: `rngNext` steps a
64-bit linear congruential state.  Every theorem below holds for all states,
so nothing depends on the particular stream values. -/
structure Rng where
  state : Nat
  deriving DecidableEq, Repr

/-- One step of the stream. -/
def rngNext (g : Rng) : Nat × Rng :=
  let s := (6364136223846793005 * g.state + 1442695040888963407) % 2 ^ 64
  (s, ⟨s⟩)

/-- `random.Random(seed)`. -/
def mkRng (seed : Int) : Rng := ⟨(seed.emod (2 ^ 64)).toNat⟩

/-- `random.Random.randint(lo, hi)`: uniform integer in `[lo, hi]`, raising
`ValueError` when the range is empty. -/
def pyRandint (lo hi : Int) (g : Rng) : Except GenError (Int × Rng) :=
  if hi < lo then .error (.valueError "empty range for randrange") else
  let (x, g') := rngNext g
  .ok (lo + ((x % (hi - lo + 1).toNat : Nat) : Int), g')

/-- `random.Random.sample(pop, k)`: `k` elements without replacement,
raising `ValueError` when the population is too small. -/
def pySample {α : Type} (pop : List α) (k : Nat) (g : Rng) :
    Except GenError (List α × Rng) :=
  match k, pop with
  | 0, _ => .ok ([], g)
  | _ + 1, [] => .error (.valueError "Sample larger than population")
  | k + 1, p :: ps =>
    let (x, g') := rngNext g
    let i := x % (p :: ps).length
    let a := (p :: ps).getD i p
    match pySample ((p :: ps).eraseIdx i) k g' with
    | .ok (rest, g2) => .ok (a :: rest, g2)
    | .error err => .error err

/-- `random.Random.uniform(a, b)`. -/
def pyUniform (a b : ℚ) (g : Rng) : ℚ × Rng :=
  let (x, g') := rngNext g
  (a + ((x % 1024 : Nat) : ℚ) / 1024 * (b - a), g')

/-- `random.Random.random()` compared against a threshold; models
`machine_rand.random() < p` as a Bool draw. -/
def pyRandomBelow (p : ℚ) (g : Rng) : Bool × Rng :=
  let (x, g') := rngNext g
  (decide (((x % 1024 : Nat) : ℚ) / 1024 < p), g')

/-- Python `round(v, 1)` on the exact rational model (the banker-rounding
and binary-float deviations of CPython are not observed by any theorem). -/
def pyRound1 (q : ℚ) : ℚ := ((round (q * 10) : Int) : ℚ) / 10

/-- Python `int()` truncation toward zero. -/
def pyIntTrunc (q : ℚ) : Int := if 0 ≤ q then ⌊q⌋ else ⌈q⌉

/-- Python truthiness of an optional float (`None` and `0.0` are falsy). -/
def pyTruthy (r : Option ℚ) : Bool :=
  match r with
  | none => false
  | some v => decide (v ≠ 0)

/-- Python `x or 0` for an optional float. -/
def pyOrZeroQ (r : Option ℚ) : ℚ := (r.getD 0)

/-- Identity of a `Machine` object: its owning center id and its machine id
(back-references are stored as plain ids). -/
structure MachineRef where
  centerId : Nat
  id : Nat
  deriving DecidableEq, Repr

/-- operation.py `Operation`: owning job and machine are optional
references, processing time an optional float. -/
structure OperationRec where
  job : Option Nat
  machine : Option MachineRef
  processingTime : Option ℚ
  deriving DecidableEq, Repr

/-- machine.py `Machine` (center back-reference as id; schedule list). -/
structure MachineRec where
  id : Nat
  centerId : Nat
  processingSpeed : ℚ
  schedule : List OperationRec
  setupTimes : Option (List ((Nat × Nat) × Int))
  breakdowns : Option (List (ℚ × ℚ))
  deriving DecidableEq, Repr

/-- center.py `Center`. -/
structure CenterRec where
  id : Nat
  machines : List MachineRec
  deriving DecidableEq, Repr

/-- `Machine.add_operation`: raise exactly when the operation is already
bound to a machine id different from this machine's id, else append to the
schedule. -/
def addOperation (m : MachineRec) (op : OperationRec) : Except String MachineRec :=
  match op.machine with
  | some r =>
    if r.id ≠ m.id then
      .error ("Operation machine_id " ++ toString r.id ++
        " does not match Machine " ++ toString m.id)
    else .ok { m with schedule := m.schedule ++ [op] }
  | none => .ok { m with schedule := m.schedule ++ [op] }

/-- The tunable generation ranges of `InstanceConfig` (dataclass fields). -/
structure Tunables where
  releaseFactor : ℚ
  processTime : Int × Int
  machineSpeed : ℚ × ℚ
  eligibleMachines : Int × Option Int
  dueDateFactors : ℚ × ℚ × ℚ
  dueDatePenalty : ℚ × ℚ
  deadlineFactor : ℚ
  predecessors : Int × Int
  deriving DecidableEq, Repr

/-- The dataclass defaults of `InstanceConfig` (0.5, 0.9-1.1, 1.5/0.2/2.0
and 0.11 written as exact rationals). -/
def defaultTunables : Tunables where
  releaseFactor := mkRat 1 2
  processTime := (2, 20)
  machineSpeed := (mkRat 9 10, mkRat 11 10)
  eligibleMachines := (1, none)
  dueDateFactors := (mkRat 3 2, mkRat 1 5, 2)
  dueDatePenalty := (1, 5)
  deadlineFactor := mkRat 11 100
  predecessors := (0, 2)

/-- `InstanceConfig._validate_parameters` (the five assert statements). -/
def checkTunables (t : Tunables) : Bool :=
  decide (0 < t.processTime.1 ∧ 0 < t.processTime.2 ∧ t.processTime.1 ≤ t.processTime.2) &&
  decide (0 < t.machineSpeed.1 ∧ t.machineSpeed.2 ≤ 2 ∧ t.machineSpeed.1 ≤ t.machineSpeed.2) &&
  (decide (0 < t.eligibleMachines.1) &&
    (match t.eligibleMachines.2 with
     | none => true
     | some mx => decide (t.eligibleMachines.1 ≤ mx))) &&
  decide (0 < t.dueDatePenalty.1 ∧ 0 < t.dueDatePenalty.2 ∧ t.dueDatePenalty.1 ≤ t.dueDatePenalty.2) &&
  decide (0 ≤ t.predecessors.1 ∧ t.predecessors.1 ≤ t.predecessors.2)

/-- instanceconfig.py `InstanceConfig` after `__post_init__`. -/
structure Config where
  jobSeed : Nat
  machineSeed : Nat
  numJobs : Int
  numOperations : Int
  numCenters : Int
  numMachines : Int
  tunables : Tunables
  flowshop : Bool
  jobshop : Bool
  openshop : Bool
  pDifferent : Bool
  pUnrelated : Bool
  eligible : Bool
  sameMj : Bool
  release : Bool
  due : Bool
  deadline : Bool
  precedence : Bool
  setupNecessary : Bool
  breakdownsPossible : Bool
  deriving Repr

/-- `InstanceConfig.__post_init__`: copy the environment attributes and
derived flags, then run the assert checks (an `AssertionError` on failure). -/
def mkConfig (e : EnvInput) (t : Tunables) : Except GenError Config :=
  let af := getAlphaSetup e
  let bf := getBetaSetup e
  let cfg : Config :=
    { jobSeed := jobSeed e, machineSeed := machineSeed e,
      numJobs := e.numJobs, numOperations := numOperations e,
      numCenters := e.numCenters, numMachines := e.numMachines,
      tunables := t,
      flowshop := af.isFlowshop, jobshop := af.isJobshop,
      openshop := af.isOpenshop, pDifferent := af.isDifferent,
      pUnrelated := af.isUnrelated, eligible := bf.isEligible,
      sameMj := bf.isSameEligibleMachines, release := bf.isRelease,
      due := bf.isDue, deadline := bf.isDeadline,
      precedence := bf.isPrecedence, setupNecessary := bf.isSetuptimeSeq,
      breakdownsPossible := bf.isBreakdown }
  if checkTunables t then .ok cfg else .error (.assertionError "invalid range")

/-- `Instance._create_centers_machines`.  The loop body begins with
`Center(i)`, but `Center.__init__` has a second required positional argument
`machines` that the call omits, so Python raises `TypeError` on the first
iteration; the remainder of the loop body (speed draw, setup table,
breakdown list, machine construction) is unreachable. -/
def createCentersMachines (cfg : Config) (machineRand : Rng) :
    Except GenError (List CenterRec × Rng) :=
  (List.range cfg.numCenters.toNat).foldlM
    (fun _acc _i => .error GenError.typeErrorCenterInit)
    (([] : List CenterRec), machineRand)

/-- operation initializer records built by `_create_operations_per_job`. -/
structure OpInit where
  id : Nat
  eligibleMachines : Option (List MachineRec)
  processingTimes : Option (List (MachineRec × ℚ))
  deriving DecidableEq, Repr

/-- Draw machine-dependent processing times for the eligible machines
(the dict comprehensions of `_create_operations_per_job`): one draw per
machine when `unrelated`, otherwise one shared draw. -/
def drawProcessingTimes (unrelated : Bool) (lo hi : Int)
    (ms : List MachineRec) (g : Rng) :
    Except GenError (List (MachineRec × ℚ) × Rng) :=
  if unrelated then
    ms.foldlM
      (fun (acc : List (MachineRec × ℚ) × Rng) m => do
        let (v, g') ← pyRandint lo hi acc.2
        pure (acc.1 ++ [(m, pyRound1 ((v : ℚ) / m.processingSpeed))], g'))
      ([], g)
  else do
    let (v, g') ← pyRandint lo hi g
    pure (ms.map (fun m => (m, pyRound1 ((v : ℚ) / m.processingSpeed))), g')

/-- The final `for op in operation_initializers:` loop of
`_create_operations_per_job`.  The loop appends `new_operation` to the very
list it iterates, so the iteration index never reaches the end of the list;
`fuel` bounds the number of iterations the model executes. -/
def opInitLoop (cfg : Config) (eligibleFinal : List MachineRec) :
    Nat → Nat → List OpInit → Rng → Except GenError (List OpInit × Rng)
  | 0, _, _, _ => .error .outOfFuel
  | fuel + 1, i, ops, g =>
    if h : i < ops.length then
      match drawProcessingTimes cfg.pUnrelated cfg.tunables.processTime.1
          cfg.tunables.processTime.2 eligibleFinal g with
      | .error err => .error err
      | .ok (pts, g') =>
        -- `new_operation` is the operation created last; its
        -- `processing_times` is overwritten and it is appended again.
        let upd := fun (op : OpInit) =>
          if op.id + 1 = cfg.numOperations.toNat then
            { op with processingTimes := some pts }
          else op
        opInitLoop cfg eligibleFinal fuel (i + 1)
          ((ops.map upd) ++ [{ ops.get ⟨i, h⟩ with processingTimes := some pts }]) g'
    else .ok (ops, g)

/-- `Instance._create_operations_per_job`.  Eligibility assignment touches
only `new_operation` (the last initializer); the final processing-time loop
extends its own iteration list and is modelled with `fuel`. -/
def createOperationsPerJob (fuel : Nat) (cfg : Config) (centers : List CenterRec)
    (g : Rng) : Except GenError (List OpInit × Rng) := do
  let numOps := cfg.numOperations.toNat
  let eligible0 : List MachineRec := (centers.map (·.machines)).flatten
  let opInits : List OpInit := (List.range numOps).map (fun o => ⟨o, none, none⟩)
  -- eligibility phase
  let (eligibleFinal, lastEligible, g1) ←
    if cfg.eligible then
      (List.range numOps).foldlM
        (fun (st : List MachineRec × Option (List MachineRec) × Rng) o => do
          let machinesAtIndex ← centers.mapM (fun c =>
            match c.machines.get? o with
            | some m => Except.ok m
            | none => Except.error (GenError.valueError "IndexError"))
          if machinesAtIndex.isEmpty then
            Except.error (GenError.valueError
              ("No valid machines found at index " ++ toString o ++ " across centers!"))
          else do
            let (numSel, ga) ← pyRandint 1 (machinesAtIndex.length : Int) st.2.2
            let (sel, gb) ← pySample machinesAtIndex numSel.toNat ga
            let newEligible := st.1 ++ sel
            pure (newEligible, some newEligible, gb))
        (eligible0, none, g)
    else do
      let lastIdx ←
        (List.range numOps).foldlM
          (fun (_ : Option (List MachineRec)) o => do
            let ms ← centers.mapM (fun c =>
              match c.machines.get? o with
              | some m => Except.ok m
              | none => Except.error (GenError.valueError "IndexError"))
            pure (some ms))
          none
      pure (eligible0, lastIdx, g)
  -- the last initializer receives the eligibility assignment
  let opInits1 := opInits.map (fun op =>
    if op.id + 1 = numOps then { op with eligibleMachines := lastEligible } else op)
  opInitLoop cfg eligibleFinal fuel 0 opInits1 g1

/-- job.py `Job` as read by the predecessor selection: identity, optional
release time and the processing times of its operations. -/
structure JobRec where
  id : Nat
  releaseTime : Option ℚ
  opProcessingTimes : List (Option ℚ)
  deriving DecidableEq, Repr

/-- `Job.total_processing_time`: sum of the non-`None` processing times. -/
def totalProcessingTime (j : JobRec) : ℚ :=
  (j.opProcessingTimes.filterMap id).sum

/-- job initializer records of `_create_jobs` (the method assigns release
time, due date, deadline and predecessors; it never assigns a sequence or
operations). -/
structure JobInit where
  id : Nat
  releaseTime : Option ℚ
  dueDate : Option (ℚ × ℚ)
  deadline : Option Int
  predecessors : List JobRec
  deriving DecidableEq, Repr

/-- The sequencing branch of `_create_jobs` (lines 146-153): ascending list
when `is_flowshop`, empty when `is_openshop`, a drawn permutation with a
makespan refinement when `not is_jobshop`, and otherwise no branch runs and
the local `sequence` is left unassigned (modelled as `none`). -/
def chooseSequence (cfg : Config) (makespan : ℚ) (g : Rng) :
    Except GenError (Option (List Nat) × ℚ × Rng) :=
  if cfg.flowshop then .ok (some (List.range cfg.numMachines.toNat), makespan, g)
  else if cfg.openshop then .ok (some [], makespan, g)
  else if ¬ cfg.jobshop then
    match pySample (List.range cfg.numMachines.toNat) cfg.numMachines.toNat g with
    | .ok (perm, g') =>
      .ok (some perm, ((⌈makespan / (cfg.numMachines : ℚ)⌉ : Int) : ℚ), g')
    | .error err => .error err
  else .ok (none, makespan, g)

/-- `float(job_rand.randint(0, ceil(makespan * release_factor))) if
is_release else None`. -/
def drawRelease (cfg : Config) (makespan : ℚ) (g : Rng) :
    Except GenError (Option ℚ × Rng) :=
  if cfg.release then
    (pyRandint 0 ⌈makespan * cfg.tunables.releaseFactor⌉ g).map
      (fun vg => (some ((vg.1 : ℚ)), vg.2))
  else .ok (none, g)

/-- The `(float(ceil(duedate_estimation + randint(...))), float(randint(
penalty range)))` pair `if is_due else None`. -/
def drawDue (cfg : Config) (makespan duedateEst : ℚ) (g : Rng) :
    Except GenError (Option (ℚ × ℚ) × Rng) :=
  if cfg.due then do
    let (dv, ga) ← pyRandint 0 ⌈makespan * cfg.tunables.dueDateFactors.2.1⌉ g
    let (pv, gb) ← pyRandint (pyIntTrunc cfg.tunables.dueDatePenalty.1)
      (pyIntTrunc cfg.tunables.dueDatePenalty.2) ga
    pure (some (((⌈duedateEst + (dv : ℚ)⌉ : Int) : ℚ), ((pv : ℚ))), gb)
  else .ok (none, g)

/-- `ceil(deadline_estimation + randint(0, ceil(makespan * deadline_factor)))
if is_deadline else None`. -/
def drawDeadline (cfg : Config) (makespan deadlineEst2 : ℚ) (g : Rng) :
    Except GenError (Option Int × Rng) :=
  if cfg.deadline then
    (pyRandint 0 ⌈makespan * cfg.tunables.deadlineFactor⌉ g).map
      (fun vg => (some (⌈deadlineEst2 + (vg.1 : ℚ)⌉), vg.2))
  else .ok (none, g)

/-- The timing-window block of `_create_jobs` (lines 155-164): release time,
due date with penalty, and deadline, each drawn only when its flag is
active; the deadline estimate is raised to the due date when a due date is
present (a nonempty tuple is truthy). -/
def computeTiming (cfg : Config) (makespan : ℚ) (g : Rng) :
    Except GenError (Option ℚ × Option (ℚ × ℚ) × Option Int × Rng) := do
  let t := cfg.tunables
  let avgPt : ℚ := ((t.processTime.1 + t.processTime.2 : Int) : ℚ) / 2
  let (release, g1) ← drawRelease cfg makespan g
  let duedateEst : ℚ :=
    pyOrZeroQ release + ((⌈(cfg.numOperations : ℚ) * avgPt * t.dueDateFactors.1⌉ : Int) : ℚ)
  let (dueDate, g2) ← drawDue cfg makespan duedateEst g1
  let deadlineEst : ℚ :=
    pyOrZeroQ release + ((⌈(cfg.numOperations : ℚ) * avgPt * t.dueDateFactors.2.2⌉ : Int) : ℚ)
  let deadlineEst2 : ℚ :=
    match dueDate with
    | some dd => max deadlineEst dd.1
    | none => deadlineEst
  let (deadline, g3) ← drawDeadline cfg makespan deadlineEst2 g2
  return (release, dueDate, deadline, g3)

/-- The candidate-pool loop of the predecessor block (lines 168-175): each
previous job is appended to the pool when the current release time is falsy
or strictly above the candidate's earliest completion, and `num_pred` is
reassigned on every iteration from the current pool size and a fresh draw. -/
def pickPredLoop (releaseTime : Option ℚ) (minPre maxPre : Int) :
    List JobRec → List JobRec → Option Int → Rng →
    Except GenError (List JobRec × Option Int × Rng)
  | [], pool, numPred, g => .ok (pool, numPred, g)
  | j :: rest, pool, _numPred, g =>
    let pe := pyOrZeroQ j.releaseTime + totalProcessingTime j
    let keep : Bool :=
      if pyTruthy releaseTime then decide (pyOrZeroQ releaseTime > pe) else true
    let pool' := if keep then pool ++ [j] else pool
    match pyRandint minPre maxPre g with
    | .error err => .error err
    | .ok (r, g') =>
      pickPredLoop releaseTime minPre maxPre rest pool'
        (some (min (pool'.length : Int) r)) g'

/-- The predecessor block of `_create_jobs` (lines 166-177).  When the loop
body never ran (no previous jobs) the local `num_pred` is unbound and the
`if num_pred > 0` test raises `NameError`. -/
def pickPredecessors (jobs : List JobRec) (releaseTime : Option ℚ)
    (minPre maxPre : Int) (g : Rng) : Except GenError (List JobRec × Rng) := do
  let (pool, numPred, g1) ← pickPredLoop releaseTime minPre maxPre jobs [] none g
  match numPred with
  | none => .error (.nameError "num_pred")
  | some np =>
    if np > 0 then pySample pool np.toNat g1
    else .ok ([], g1)

/-- `Instance._create_jobs`: builds operation initializers per job (the
first loop), then walks the job initializers assigning sequence, timing
windows and predecessors.  `self.jobs` is never appended to in this method,
so the predecessor candidate list is always empty. -/
def createJobs (fuel : Nat) (cfg : Config) (centers : List CenterRec) (g : Rng) :
    Except GenError (List JobInit × Rng) := do
  let t := cfg.tunables
  let avgPt : ℚ := ((t.processTime.1 + t.processTime.2 : Int) : ℚ) / 2
  let makespan0 : ℚ :=
    ((⌈(cfg.numJobs : ℚ) * avgPt / (cfg.numCenters : ℚ)⌉ : Int) : ℚ)
  -- first loop: operation initializers (result overwritten per job) and
  -- one JobInitializer per job
  let (inits, g1) ←
    (List.range cfg.numJobs.toNat).foldlM
      (fun (st : List JobInit × Rng) j => do
        let (_, ga) ← createOperationsPerJob fuel cfg centers st.2
        pure (st.1 ++ [⟨j, none, none, none, []⟩], ga))
      (([] : List JobInit), g)
  -- second loop over the job initializers
  let (inits2, _, g2) ←
    inits.foldlM
      (fun (st : List JobInit × ℚ × Rng) jobInit => do
        let (_seq, mk1, ga) ← chooseSequence cfg st.2.1 st.2.2
        let (release, dueDate, deadline, gb) ← computeTiming cfg mk1 ga
        let (preds, gc) ←
          if cfg.precedence then
            pickPredecessors [] release t.predecessors.1 t.predecessors.2 gb
          else pure ([], gb)
        let jobInit2 : JobInit :=
          { jobInit with releaseTime := release, dueDate := dueDate,
                         deadline := deadline, predecessors := preds }
        pure (st.1 ++ [jobInit2], mk1, gc))
      (([] : List JobInit), makespan0, g1)
  pure (inits2, g2)

/-- The populated instance value (never reached by the source). -/
structure InstanceRec where
  name : String
  centers : List CenterRec
  jobs : List JobInit
  deriving Repr

/-- `Instance.__init__` followed by `_create_instance`: build the config
(assert checks), derive the two stream seeds as `base seed + instance
seed`, create centers/machines with the machine stream, create jobs with
the job stream, then enter the final loop, whose body refers to `num_jobs`,
`prev_center_jobs` and further names that are not defined in the scope of
`_create_instance`; its first center iteration raises `NameError`. -/
def createInstance (e : EnvInput) (seed : Int) (fuel : Nat) :
    Except GenError InstanceRec := do
  let cfg ← mkConfig e defaultTunables
  let nm := ((envToString e).replace "|" "-").replace "," "-"
  let jobRand := mkRng ((cfg.jobSeed : Int) + seed)
  let machineRand := mkRng ((cfg.machineSeed : Int) + seed)
  let (centers, _mr) ← createCentersMachines cfg machineRand
  let (jobs, _jr) ← createJobs fuel cfg centers jobRand
  match centers with
  | [] => pure { name := nm, centers := centers, jobs := jobs }
  | _ :: _ =>
    -- the machines-not-assigned check cannot fire in this model (machines
    -- are not optional); the body then evaluates `range(num_jobs)`
    .error (.nameError "num_jobs")

/-! Theorems. -/

/-- Inversion of a successful `Except` bind. -/
theorem except_bind_ok {ε α β : Type} {x : Except ε α} {f : α → Except ε β} {b : β}
    (h : (x >>= f) = .ok b) : ∃ a, x = .ok a ∧ f a = .ok b := by
  cases x with
  | ok a => exact ⟨a, rfl, h⟩
  | error e => exact absurd h (by simp [Bind.bind, Except.bind])

/-- A successful validation implies the sizing bounds of check 1. -/
theorem validate_ok_sizing {e : EnvInput} (h : validate e = .ok ()) :
    1 ≤ e.numJobs ∧ 1 ≤ e.numMachines ∧ 1 ≤ e.numCenters ∧ e.numMachines ≤ e.numJobs := by
  unfold validate at h
  obtain ⟨_, hs, _⟩ := except_bind_ok h
  unfold checkSizing at hs
  split_ifs at hs with h1 h2 h3 h4
  omega

/-- The machine-stream center loop always fails: its body starts with an
arity-defective `Center(i)` call. -/
theorem createCentersMachines_fails (cfg : Config) (mr : Rng)
    (h : cfg.numCenters.toNat ≠ 0) :
    createCentersMachines cfg mr = .error .typeErrorCenterInit := by
  obtain ⟨n, hn⟩ := Nat.exists_eq_succ_of_ne_zero h
  unfold createCentersMachines
  rw [hn, List.range_succ_eq_map]
  rfl

/-- Every instance construction from an environment with at least one center
stops at the `Center(i)` TypeError. -/
theorem createInstance_fails (e : EnvInput) (seed : Int) (fuel : Nat)
    (hc : 1 ≤ e.numCenters) :
    createInstance e seed fuel = .error GenError.typeErrorCenterInit := by
  have h1 : checkTunables defaultTunables = true := by decide
  have hnz : e.numCenters.toNat ≠ 0 := by
    simp only [ne_eq, Int.toNat_eq_zero]
    omega
  unfold createInstance
  simp only [mkConfig, h1, if_true, Bind.bind, Except.bind]
  rw [createCentersMachines_fails _ _ hnz]

/-- Bounds of a successful `randint` draw. -/
theorem pyRandint_ok {lo hi : Int} {g : Rng} {v : Int} {g' : Rng}
    (h : pyRandint lo hi g = .ok (v, g')) : lo ≤ v ∧ v ≤ hi := by
  unfold pyRandint at h
  split_ifs at h with hlt
  simp only [Except.ok.injEq, Prod.mk.injEq] at h
  obtain ⟨hv, _⟩ := h
  have hmod : ((rngNext g).1 % (hi - lo + 1).toNat : Nat) < (hi - lo + 1).toNat := by
    apply Nat.mod_lt
    omega
  omega

/-- Elements drawn by `sample` come from the population. -/
theorem pySample_mem {α : Type} :
    ∀ (k : Nat) (pop : List α) (g : Rng) (res : List α) (g' : Rng),
    pySample pop k g = .ok (res, g') → ∀ a ∈ res, a ∈ pop := by
  intro k
  induction k with
  | zero =>
    intro pop g res g' h a ha
    unfold pySample at h
    simp only [Except.ok.injEq, Prod.mk.injEq] at h
    rw [← h.1] at ha
    cases ha
  | succ k ih =>
    intro pop g res g' h a ha
    match pop with
    | [] => exact absurd h (by unfold pySample; simp)
    | p :: ps =>
      unfold pySample at h
      rcases hgn : rngNext g with ⟨x, g2⟩
      rw [hgn] at h
      simp only at h
      cases hrec : pySample ((p :: ps).eraseIdx (x % (p :: ps).length)) k g2 with
      | error err => rw [hrec] at h; cases h
      | ok pr =>
        rw [hrec] at h
        simp only [Except.ok.injEq, Prod.mk.injEq] at h
        obtain ⟨hres, _⟩ := h
        rw [← hres] at ha
        cases ha with
        | head =>
          have hilen : x % (p :: ps).length < (p :: ps).length :=
            Nat.mod_lt _ (by simp)
          rw [List.getD_eq_getElem _ _ hilen]
          exact List.getElem_mem hilen
        | tail _ hmem =>
          exact (List.eraseIdx_sublist (p :: ps) (x % (p :: ps).length)).subset
            (ih _ _ _ _ hrec a hmem)

/-- Characterisation of the candidate pool built by `pickPredLoop`: every
pool member was already in the pool or comes from the candidate list and
passed the falsy-or-strictly-later release test. -/
theorem pickPredLoop_pool (rt : Option ℚ) (mn mx : Int) :
    ∀ (rest pool : List JobRec) (np : Option Int) (g : Rng)
      (pool' : List JobRec) (np' : Option Int) (g' : Rng),
    pickPredLoop rt mn mx rest pool np g = .ok (pool', np', g') →
    ∀ p ∈ pool', p ∈ pool ∨ (p ∈ rest ∧
      (pyTruthy rt = false ∨
        pyOrZeroQ p.releaseTime + totalProcessingTime p < pyOrZeroQ rt)) := by
  intro rest
  induction rest with
  | nil =>
    intro pool np g pool' np' g' h p hp
    unfold pickPredLoop at h
    simp only [Except.ok.injEq, Prod.mk.injEq] at h
    rw [← h.1] at hp
    exact Or.inl hp
  | cons j rest ih =>
    intro pool np g pool' np' g' h p hp
    unfold pickPredLoop at h
    cases hr : pyRandint mn mx g with
    | error err => rw [hr] at h; cases h
    | ok rg =>
      rw [hr] at h
      rcases ih _ _ _ _ _ _ h p hp with hin | ⟨hrest, hc⟩
      · by_cases hk :
          (if pyTruthy rt then decide (pyOrZeroQ rt >
            pyOrZeroQ j.releaseTime + totalProcessingTime j) else true) = true
        · rw [if_pos hk] at hin
          rcases List.mem_append.mp hin with hin | hin
          · exact Or.inl hin
          · refine Or.inr ⟨by simp_all, ?_⟩
            cases ht : pyTruthy rt with
            | false => exact Or.inl rfl
            | true =>
              rw [ht, if_pos rfl] at hk
              have hj : p = j := by simp_all
              rw [hj]
              exact Or.inr (of_decide_eq_true hk)
        · rw [if_neg hk] at hin
          exact Or.inl hin
      · exact Or.inr ⟨List.mem_cons_of_mem _ hrest, hc⟩

/-- Claim C1: for every environment accepted by the validator and every
instance seed, constructing an Instance does not complete: generation stops
at the `Center(i)` call of `_create_centers_machines`, whose `Center.__init__`
callee requires the `machines` argument the call omits (a TypeError), so no
populated instance is ever returned. -/
theorem validatedGenerationRaisesTypeError (e : EnvInput) (seed : Int) (fuel : Nat)
    (h : validate e = .ok ()) :
    createInstance e seed fuel = .error GenError.typeErrorCenterInit :=
  createInstance_fails e seed fuel (validate_ok_sizing h).2.2.1

/-- The jobshop example environment of schedulingfield.py. -/
def envC1 : EnvInput := ⟨JOBSHOP, [PRECEDENCE, DUE_DATES], MAKESPAN, 31, 7, 1⟩

/-- Witness for C1 at the module's own example environment. -/
theorem validatedGenerationRaisesTypeError_witness :
    validate envC1 = .ok () ∧
      createInstance envC1 0 5 = .error GenError.typeErrorCenterInit :=
  ⟨by decide, validatedGenerationRaisesTypeError envC1 0 5 (by decide)⟩

/-- Claim C2: for a fixed validated environment and instance index the
construction procedure is deterministic (the model is a pure function of
the seeds), but no invocation ever produces the jobs/machines/operations
the claim speaks about: every invocation fails identically with the
`Center(i)` TypeError. -/
theorem generateNeverProducesInstance (e : EnvInput) (seed : Int)
    (fuel₁ fuel₂ : Nat) (h : validate e = .ok ()) :
    createInstance e seed fuel₁ = createInstance e seed fuel₂ ∧
      ∀ inst : InstanceRec, createInstance e seed fuel₁ ≠ .ok inst := by
  have h1 := createInstance_fails e seed fuel₁ (validate_ok_sizing h).2.2.1
  have h2 := createInstance_fails e seed fuel₂ (validate_ok_sizing h).2.2.1
  refine ⟨h1.trans h2.symm, fun inst hin => ?_⟩
  rw [h1] at hin
  cases hin

/-- The single-machine example environment of schedulingfield.py. -/
def envC2 : EnvInput := ⟨SINGLE_MACHINE, [DUE_DATES], MAKESPAN, 5, 1, 1⟩

/-- Witness for C2. -/
theorem generateNeverProducesInstance_witness :
    validate envC2 = .ok () ∧
      (createInstance envC2 0 3 = createInstance envC2 0 7 ∧
        ∀ inst : InstanceRec, createInstance envC2 0 3 ≠ .ok inst) :=
  ⟨by decide, generateNeverProducesInstance envC2 0 3 7 (by decide)⟩

/-- Claim C3: the alpha/center-count biconditional does not hold; a
multi-stage (flexible) alpha with `num_centers > 1` is rejected (the
flexible member names are absent from the `alpha_fields` name filter, and
the center-count branch tests an enum member against a set of value
strings), while the non-flexible half of the claim does hold. -/
theorem flexibleAlphaRejectedDespiteCenters :
    validateAlphaField ⟨FLEXIBLE_FLOWSHOP_IDENTICAL, [], MAKESPAN, 5, 2, 2⟩ =
      .error (.invalidAlphaField FLEXIBLE_FLOWSHOP_IDENTICAL) ∧
    validate ⟨FLEXIBLE_FLOWSHOP_IDENTICAL, [], MAKESPAN, 5, 2, 2⟩ =
      .error (.invalidAlphaField FLEXIBLE_FLOWSHOP_IDENTICAL) ∧
    FLEXIBLE_FLOWSHOP_IDENTICAL ∉ alpha_fields ∧
    pyEnumInStrSet FLEXIBLE_FLOWSHOP_IDENTICAL CENTER_ALPHA_FIELDS = false ∧
    validate ⟨JOBSHOP, [], MAKESPAN, 5, 2, 1⟩ = .ok () ∧
    validate ⟨JOBSHOP, [], MAKESPAN, 5, 2, 2⟩ =
      .error (.centersMustBeOne JOBSHOP 2) := by
  refine ⟨by decide, by decide, by decide, by decide, by decide, by decide⟩

/-- Claim C4: several symbols of the spec vocabulary fail their membership
check: parallel-different, every flexible shop variant, per-job-per-center
eligibility, the earliness objectives, the late-job-count objectives and
total absolute deviation are all rejected. -/
theorem specVocabularyRejectedByMembership :
    PARALLEL_DIFFERENT ∉ alpha_fields ∧
    FLEXIBLE_FLOWSHOP_IDENTICAL ∉ alpha_fields ∧
    FLEXIBLE_FLOWSHOP_DIFFERENT ∉ alpha_fields ∧
    FLEXIBLE_FLOWSHOP_UNRELATED ∉ alpha_fields ∧
    FLEXIBLE_JOBSHOP_IDENTICAL ∉ alpha_fields ∧
    FLEXIBLE_JOBSHOP_DIFFERENT ∉ alpha_fields ∧
    FLEXIBLE_JOBSHOP_UNRELATED ∉ alpha_fields ∧
    FLEXIBLE_OPENSHOP_IDENTICAL ∉ alpha_fields ∧
    FLEXIBLE_OPENSHOP_DIFFERENT ∉ alpha_fields ∧
    FLEXIBLE_OPENSHOP_UNRELATED ∉ alpha_fields ∧
    MACHINE_CENTER_ELIGIBILITY ∉ beta_fields ∧
    EARLYNESS ∉ gamma_fields ∧
    WEIGHTED_EARLYNESS ∉ gamma_fields ∧
    NUMBER_LATE_JOBS ∉ gamma_fields ∧
    WEIGHTED_LATE_JOBS ∉ gamma_fields ∧
    TOTAL_ABS_DEVIATION ∉ gamma_fields ∧
    validate ⟨JOBSHOP, [DUE_DATES], NUMBER_LATE_JOBS, 5, 2, 1⟩ =
      .error (.invalidGammaField NUMBER_LATE_JOBS) ∧
    validate ⟨JOBSHOP, [MACHINE_CENTER_ELIGIBILITY], MAKESPAN, 5, 2, 1⟩ =
      .error (.invalidBetaFields "M_j_c") ∧
    validate ⟨PARALLEL_DIFFERENT, [], MAKESPAN, 5, 2, 1⟩ =
      .error (.invalidAlphaField PARALLEL_DIFFERENT) := by
  decide

/-- Claim C5 counterexample: with both a conflicting beta pair and a
forbidden alpha-beta pairing present, the alpha-beta error (not the
beta-internal error) is raised; with an invalid gamma and a conflicting
beta pair, the beta-internal error (not the gamma-membership error) is
raised. -/
theorem validationOrderClaimFalse :
    validate ⟨FLOWSHOP, [PREEMPTION, NO_WAIT], MAKESPAN, 3, 2, 1⟩ =
      .error (.conflictingAlphaBeta "F" "prmp") ∧
    validate ⟨FLOWSHOP, [PREEMPTION, NO_WAIT], MAKESPAN, 3, 2, 1⟩ ≠
      .error (.conflictingBeta "nwt" "prmp") ∧
    validate ⟨PARALLEL_IDENTICAL, [SETUP_TIMES, SEQUENCE_DEPENDENT_SETUP], EARLYNESS, 3, 2, 1⟩ =
      .error (.conflictingBeta "s_ij" "s_jk") ∧
    validate ⟨PARALLEL_IDENTICAL, [SETUP_TIMES, SEQUENCE_DEPENDENT_SETUP], EARLYNESS, 3, 2, 1⟩ ≠
      .error (.invalidGammaField EARLYNESS) := by
  decide

/-- Claim C5 amended: the checks run in the order sizing, alpha field,
beta membership, alpha-beta consistency, beta internal consistency, gamma
membership, gamma-beta dependency, first failure winning; in particular a
passing prefix followed by an alpha-beta conflict (resp. a beta conflict)
yields that error. -/
theorem validationOrderActual :
    (∀ (e : EnvInput) (err : ValidationError),
      checkSizing e = .ok () → validateAlphaField e = .ok () →
      validateBetaField e = .ok () →
      validateAlphaBetaDependencies e = .error err →
      validate e = .error err) ∧
    (∀ (e : EnvInput) (err : ValidationError),
      checkSizing e = .ok () → validateAlphaField e = .ok () →
      validateBetaField e = .ok () →
      validateAlphaBetaDependencies e = .ok () →
      validateBetaCombinations e = .error err →
      validate e = .error err) ∧
    validate ⟨FLOWSHOP, [NO_WAIT, PREEMPTION], MAKESPAN, 4, 2, 1⟩ =
      .error (.conflictingAlphaBeta "F" "prmp") ∧
    validate ⟨PARALLEL_IDENTICAL, [SEQUENCE_DEPENDENT_SETUP, SETUP_TIMES], WEIGHTED_EARLYNESS, 4, 2, 1⟩ =
      .error (.conflictingBeta "s_ij" "s_jk") := by
  refine ⟨?_, ?_, by decide, by decide⟩
  · intro e err h1 h2 h3 h4
    simp [validate, h1, h2, h3, h4, Bind.bind, Except.bind]
  · intro e err h1 h2 h3 h4 h5
    simp [validate, h1, h2, h3, h4, h5, Bind.bind, Except.bind]

/-- Witness for the C5 amended order statement. -/
theorem validationOrderActual_witness :
    validate ⟨FLOWSHOP, [PREEMPTION], MAKESPAN, 3, 2, 1⟩ =
      .error (.conflictingAlphaBeta "F" "prmp") :=
  validationOrderActual.1 ⟨FLOWSHOP, [PREEMPTION], MAKESPAN, 3, 2, 1⟩
    (.conflictingAlphaBeta "F" "prmp") (by decide) (by decide) (by decide) (by decide)

/-- A flowshop environment. -/
def envFlowC6 : EnvInput := ⟨FLOWSHOP, [], MAKESPAN, 5, 2, 1⟩

/-- An openshop environment. -/
def envOpenC6 : EnvInput := ⟨OPENSHOP, [], MAKESPAN, 5, 2, 1⟩

/-- Claim C6: the sequencing template does not follow the alpha family.
The `is_flowshop`, `is_jobshop` and `is_openshop` flags are always `False`
(their membership tests compare enum members against value strings), so
every alpha takes the `not is_jobshop` branch: a flowshop job receives a
drawn permutation instead of the fixed ascending order, and an openshop job
receives a drawn permutation instead of an empty sequence. -/
theorem flowshopSequenceNotAscending :
    (getAlphaSetup envFlowC6).isFlowshop = false ∧
    (getAlphaSetup envOpenC6).isOpenshop = false ∧
    (getAlphaSetup envFlowC6).isJobshop = false ∧
    ((mkConfig envFlowC6 defaultTunables).bind (fun c => chooseSequence c 10 ⟨0⟩)).map
      (fun r => r.1) = .ok (some [1, 0]) ∧
    some [1, 0] ≠ some (List.range 2) ∧
    ((mkConfig envOpenC6 defaultTunables).bind (fun c => chooseSequence c 10 ⟨0⟩)).map
      (fun r => r.1) = .ok (some [1, 0]) ∧
    some [1, 0] ≠ some ([] : List Nat) := by
  decide

/-- A previously created job with no release time and total processing 5. -/
def jZeroRel : JobRec := ⟨0, none, [some 5]⟩

/-- Claim C7 counterexample: a job whose drawn release time is 0.0 is falsy
in Python, so the candidate filter is skipped: the selected predecessor has
earliest completion 5, which does not precede the release time 0 — the job
has a release time, yet the claimed bound fails. -/
theorem predecessorBoundViolatedAtZeroRelease :
    (pickPredecessors [jZeroRel] (some 0) 1 1 ⟨0⟩).map (fun r => r.1) =
      .ok [jZeroRel] ∧
    pyTruthy (some 0) = false ∧
    ¬ (pyOrZeroQ jZeroRel.releaseTime + totalProcessingTime jZeroRel ≤ 0) := by
  refine ⟨by decide, by decide, ?_⟩
  norm_num [pyOrZeroQ, totalProcessingTime, jZeroRel, List.filterMap_cons,
    List.filterMap_nil]

/-- Claim C7 amended: predecessors are drawn only from the previously
created jobs, and when the release time is present and nonzero every
selected predecessor's (release or 0) + total processing time is at most
(indeed strictly below) the release time; a release time of zero is treated
like an absent one, making every previous job eligible. -/
theorem pickPredecessorsBound (jobs : List JobRec) (rt : Option ℚ)
    (mn mx : Int) (g : Rng) (preds : List JobRec) (g' : Rng)
    (h : pickPredecessors jobs rt mn mx g = .ok (preds, g')) :
    (∀ p ∈ preds, p ∈ jobs) ∧
    (∀ r : ℚ, rt = some r → r ≠ 0 →
      ∀ p ∈ preds, pyOrZeroQ p.releaseTime + totalProcessingTime p ≤ r) := by
  unfold pickPredecessors at h
  obtain ⟨⟨pool, np, g1⟩, hloop, h⟩ := except_bind_ok h
  cases np with
  | none => cases h
  | some v =>
    simp only [] at h
    have hpool : ∀ p ∈ preds, p ∈ pool := by
      by_cases hv : v > 0
      · rw [if_pos hv] at h
        exact pySample_mem _ _ _ _ _ h
      · rw [if_neg hv] at h
        simp only [Except.ok.injEq, Prod.mk.injEq] at h
        rw [← h.1]
        intro p hp
        cases hp
    have hchar := pickPredLoop_pool rt mn mx jobs [] none g pool (some v) g1 hloop
    refine ⟨fun p hp => ?_, fun r hr hr0 p hp => ?_⟩
    · rcases hchar p (hpool p hp) with hin | ⟨hj, _⟩
      · cases hin
      · exact hj
    · rcases hchar p (hpool p hp) with hin | ⟨_, hc⟩
      · cases hin
      · rcases hc with hf | hlt
        · rw [hr] at hf
          unfold pyTruthy at hf
          simp [hr0] at hf
        · rw [hr] at hlt
          exact le_of_lt hlt

/-- A previously created job with no release time and total processing 3. -/
def jPredW : JobRec := ⟨0, none, [some 3]⟩

/-- Witness for the C7 amended bound at a nonzero release time. -/
theorem pickPredecessorsBound_witness :
    jPredW ∈ [jPredW] ∧
      pyOrZeroQ jPredW.releaseTime + totalProcessingTime jPredW ≤ 10 := by
  have h : pickPredecessors [jPredW] (some 10) 1 1 ⟨0⟩ =
      .ok ([jPredW], ⟨1876011003808476466⟩) := by
    norm_num [pickPredecessors, pickPredLoop, pySample, pyRandint, pyTruthy,
      pyOrZeroQ, totalProcessingTime, jPredW, rngNext, Bind.bind, Except.bind,
      List.filterMap_cons, List.filterMap_nil]
  have hb := pickPredecessorsBound [jPredW] (some 10) 1 1 ⟨0⟩ [jPredW]
    ⟨1876011003808476466⟩ h
  exact ⟨hb.1 jPredW (by simp), hb.2 10 rfl (by norm_num) jPredW (by simp)⟩

/-- Claim C8: whenever the timing block returns both a due date and a
deadline, the deadline is at least the due date: the deadline estimate is
raised to the due date before the non-negative offset is added and the
ceiling taken. -/
theorem drawDeadline_ge (cfg : Config) (mk x : ℚ) (g : Rng) (dl : Int)
    (g' : Rng) (h : drawDeadline cfg mk x g = .ok (some dl, g')) :
    x ≤ (dl : ℚ) := by
  unfold drawDeadline at h
  split_ifs at h with hc
  · cases hr : pyRandint 0 ⌈mk * cfg.tunables.deadlineFactor⌉ g with
    | error err => rw [hr] at h; cases h
    | ok vg =>
      rw [hr] at h
      simp only [Except.map, Except.ok.injEq, Prod.mk.injEq,
        Option.some.injEq] at h
      obtain ⟨hdlv, -⟩ := h
      rw [← hdlv]
      have hov0 : 0 ≤ vg.1 := by
        rcases vg with ⟨v, gv⟩
        exact (pyRandint_ok hr).1
      have hx : x ≤ x + (vg.1 : ℚ) := by
        have : (0 : ℚ) ≤ (vg.1 : ℚ) := by exact_mod_cast hov0
        linarith
      exact le_trans hx (Int.le_ceil _)
  · simp only [Except.ok.injEq, Prod.mk.injEq] at h
    cases h.1

theorem deadlineAtLeastDueDate (cfg : Config) (mk : ℚ) (g : Rng)
    (rel : Option ℚ) (d w : ℚ) (dl : Int) (g' : Rng)
    (h : computeTiming cfg mk g = .ok (rel, some (d, w), some dl, g')) :
    d ≤ (dl : ℚ) := by
  unfold computeTiming at h
  obtain ⟨⟨release, g1⟩, hrel, h⟩ := except_bind_ok h
  obtain ⟨⟨dueOpt, g2⟩, hdue, h⟩ := except_bind_ok h
  obtain ⟨⟨dlOpt, g3⟩, hdl, h⟩ := except_bind_ok h
  have hinj : dueOpt = some (d, w) ∧ dlOpt = some dl := by
    simp only [pure, Except.pure, Except.ok.injEq, Prod.mk.injEq] at h
    exact ⟨h.2.1, h.2.2.1⟩
  rw [hinj.1] at hdl
  rw [hinj.2] at hdl
  have hge := drawDeadline_ge cfg mk _ g2 dl g3 hdl
  exact le_trans (le_max_right _ d) hge

/-- A configuration with release, due date and deadline active. -/
def cfgC8 : Config :=
  { jobSeed := 0, machineSeed := 0, numJobs := 4, numOperations := 2,
    numCenters := 1, numMachines := 2, tunables := defaultTunables,
    flowshop := false, jobshop := false, openshop := false,
    pDifferent := false, pUnrelated := false, eligible := false,
    sameMj := false, release := true, due := true, deadline := true,
    precedence := false, setupNecessary := false, breakdownsPossible := false }

/-- Witness for C8: a concrete timing draw with due date 35 and deadline 45. -/
theorem deadlineAtLeastDueDate_witness :
    computeTiming cfgC8 10 ⟨0⟩ =
      .ok (some 1, some (35, 4), some 45, ⟨7401132627792533940⟩) ∧
    (35 : ℚ) ≤ ((45 : Int) : ℚ) := by
  have h : computeTiming cfgC8 10 ⟨0⟩ =
      .ok (some 1, some (35, 4), some 45, ⟨7401132627792533940⟩) := by
    have h1 : (⌈(11 : ℚ) / 10⌉ : Int) = 2 := by
      rw [Int.ceil_eq_iff]
      norm_num
    norm_num [computeTiming, drawRelease, drawDue, drawDeadline, cfgC8,
      defaultTunables, pyRandint, pyIntTrunc, pyOrZeroQ, rngNext,
      Bind.bind, Except.bind, Except.map, pure, Except.pure]
    rw [h1]
    norm_num
  exact ⟨h, deadlineAtLeastDueDate cfgC8 10 ⟨0⟩ (some 1) 35 4 45
    ⟨7401132627792533940⟩ h⟩

/-- Permuting the beta list does not change the sorted canonical values. -/
theorem sortedBetaValues_perm {e₁ e₂ : EnvInput} (h : e₁.beta.Perm e₂.beta) :
    sortedBetaValues e₁ = sortedBetaValues e₂ := by
  unfold sortedBetaValues
  have hm : (e₁.beta.map val).Perm (e₂.beta.map val) := h.map val
  by_cases h0 : e₁.beta = []
  · have h02 : e₂.beta = [] := by
      rw [h0] at h
      exact (List.perm_nil.mp h.symm)
    rw [h0, h02]
  · have h02 : e₂.beta ≠ [] := by
      intro hh
      rw [hh] at h
      exact h0 (List.perm_nil.mp h)
    rw [if_neg (by simp [h0]), if_neg (by simp [h02])]
    exact List.eq_of_perm_of_sorted
      ((List.perm_insertionSort _ _).trans (hm.trans (List.perm_insertionSort _ _).symm))
      (List.sorted_insertionSort _ _) (List.sorted_insertionSort _ _)

/-- Claim C9: both seeds are 32-bit naturals obtained by hashing the
canonical attribute tuple, the beta values sorted before hashing; two
environments equal up to the order of their beta lists receive the same
job seed and the same machine seed. -/
theorem seedDerivationSpec (e₁ e₂ : EnvInput)
    (ha : e₁.alpha = e₂.alpha) (hg : e₁.gamma = e₂.gamma)
    (hj : e₁.numJobs = e₂.numJobs) (hm : e₁.numMachines = e₂.numMachines)
    (hc : e₁.numCenters = e₂.numCenters) (hb : e₁.beta.Perm e₂.beta) :
    jobSeed e₁ = jobSeed e₂ ∧ machineSeed e₁ = machineSeed e₂ ∧
      jobSeed e₁ < 2 ^ 32 ∧ machineSeed e₁ < 2 ^ 32 := by
  have hstr : ∀ b : Bool, seedInputString e₁ b = seedInputString e₂ b := by
    intro b
    unfold seedInputString
    rw [sortedBetaValues_perm hb, ha, hg, hj, hm, hc]
  refine ⟨?_, ?_, ?_, ?_⟩
  · unfold jobSeed generateSeed
    rw [hstr]
  · unfold machineSeed generateSeed
    rw [hstr]
  · unfold jobSeed generateSeed
    exact Nat.mod_lt _ (by norm_num)
  · unfold machineSeed generateSeed
    exact Nat.mod_lt _ (by norm_num)

/-- The jobshop example with its betas listed due-dates-first. -/
def envSeedA : EnvInput := ⟨JOBSHOP, [DUE_DATES, PRECEDENCE], MAKESPAN, 31, 7, 1⟩

/-- The jobshop example with its betas listed precedence-first. -/
def envSeedB : EnvInput := ⟨JOBSHOP, [PRECEDENCE, DUE_DATES], MAKESPAN, 31, 7, 1⟩

/-- Witness for C9 at two beta orderings of the jobshop example. -/
theorem seedDerivationSpec_witness :
    jobSeed envSeedA = jobSeed envSeedB ∧
      machineSeed envSeedA = machineSeed envSeedB ∧
      jobSeed envSeedA < 2 ^ 32 ∧ machineSeed envSeedA < 2 ^ 32 :=
  seedDerivationSpec envSeedA envSeedB rfl rfl rfl rfl rfl (by decide)

/-- Claim C10: `add_operation` errors exactly when the operation is bound to
a machine id different from this machine's id; an unbound operation and an
operation bound to any machine reference with the same id (from whatever
center) are appended to the schedule. -/
theorem addOperationSpec (m : MachineRec) (op : OperationRec) :
    (op.machine = none →
      addOperation m op = .ok { m with schedule := m.schedule ++ [op] }) ∧
    (∀ r : MachineRef, op.machine = some r → r.id = m.id →
      addOperation m op = .ok { m with schedule := m.schedule ++ [op] }) ∧
    (∀ r : MachineRef, op.machine = some r → r.id ≠ m.id →
      addOperation m op = .error ("Operation machine_id " ++ toString r.id ++
        " does not match Machine " ++ toString m.id)) := by
  refine ⟨fun hn => ?_, fun r hr hid => ?_, fun r hr hid => ?_⟩
  · unfold addOperation
    rw [hn]
  · unfold addOperation
    rw [hr]
    simp [hid]
  · unfold addOperation
    rw [hr]
    simp [hid]

/-- Machine 3 of center 0 with an empty schedule. -/
def mSameId : MachineRec := ⟨3, 0, 1, [], none, none⟩

/-- An operation bound to machine 3 of center 1: a different machine object
with the same machine id. -/
def opOtherCenter : OperationRec := ⟨none, some ⟨1, 3⟩, some 4⟩

/-- Witness for C10: the same-id cross-center operation is appended without
error. -/
theorem addOperationSpec_witness :
    addOperation mSameId opOtherCenter =
      .ok { mSameId with schedule := mSameId.schedule ++ [opOtherCenter] } ∧
    opOtherCenter.machine = some ⟨1, 3⟩ ∧ mSameId.centerId = 0 :=
  ⟨(addOperationSpec mSameId opOtherCenter).2.1 ⟨1, 3⟩ rfl rfl, rfl, rfl⟩

end InstanceForge
